import Mathlib

/-!
Verification of the sqlmint library (src/wrap.ts and the sql module):
a shallow embedding of its serialization engine, template composer,
structural helpers and query/transaction facade, together with theorems
checking the natural-language specification against the code.
-/

set_option autoImplicit false

namespace Sqlmint

/-- Embedding of the `WithRawSql` class as seen by the serialization engine:
`serialize` and every structural helper read or build only the `rawSql`
field.  (The optional row-transform `_packF` carried by the class is
irrelevant to serialization; the facade-side view that retains it is
`QueryFragment` below.) -/
structure WithRawSql where
  rawSql : String
deriving Repr, DecidableEq

/-- Tagged-variant embedding of the JavaScript values the serialization
engine dispatches on: `null`, `undefined`, booleans, numbers (integral),
strings, `WithRawSql` fragments, and arrays.  This is the closed set of
shapes the claims exercise; `serialize` dispatches exactly as the source
does (custom hook, then fragment, then array, then the generic pg-format
escaper). -/
inductive Value where
  | vNull
  | vUndefined
  | vBool (b : Bool)
  | vInt (n : Int)
  | vStr (s : String)
  | raw (f : WithRawSql)
  | arr (items : List Value)
deriving Repr

/-- Test for the JavaScript `undefined` value (`val !== undefined` in the
source is `!(Value.isUndefined val)` here). -/
def Value.isUndefined : Value → Bool
  | .vUndefined => true
  | _ => false

/-- Embedding of the module-level mutable `config` object: an optional
custom serialization hook from a value to a string or null ("no opinion").
The source initializes it to `{}` (no hook); here the configuration is
threaded explicitly. -/
structure Config where
  customSerialize : Option (Value → Option String)

/-- The initial configuration `config = {}` of the source module: no
custom serialization hook installed. -/
def Config.empty : Config := ⟨none⟩

/-- The optional-chaining call `config.customSerialize?.(val)`: `none`
both when no hook is installed and when the hook returns null. -/
def customOpinion (cfg : Config) (v : Value) : Option String :=
  match cfg.customSerialize with
  | some f => f v
  | none => none

/-- Body of pg-format string quoting when the string holds a backslash:
embedded single quotes are doubled and backslashes are doubled. -/
def pgEscapeBackslashBody (s : String) : String :=
  String.join (s.data.map fun c =>
    if c = '\'' then "''"
    else if c = '\\' then "\\\\"
    else String.singleton c)

/-- Body of pg-format string quoting without backslashes: embedded single
quotes are doubled. -/
def pgEscapeQuoteBody (s : String) : String :=
  String.join (s.data.map fun c =>
    if c = '\'' then "''" else String.singleton c)

/-- pg-format literal quoting of a string: the plain quoted form, or the
E-prefixed form when a backslash is present. -/
def pgQuoteString (s : String) : String :=
  if s.contains '\\' then "E'" ++ pgEscapeBackslashBody s ++ "'"
  else "'" ++ pgEscapeQuoteBody s ++ "'"

/-- Model of the external pg-format `literal` escaper on the scalar shapes
`serialize` can reach it with: null and undefined give `NULL`, booleans
give `'t'`/`'f'`, numbers and strings are stringified and quoted.  The
fragment and array cases are unreachable from `serialize` (it matches
those shapes earlier) and are mapped to the empty string only to keep the
function total. -/
def pgFormatLiteral : Value → String
  | .vNull => "NULL"
  | .vUndefined => "NULL"
  | .vBool true => "'t'"
  | .vBool false => "'f'"
  | .vInt n => pgQuoteString (toString n)
  | .vStr s => pgQuoteString s
  | .raw _ => ""
  | .arr _ => ""

/-- First character allowed in a pg-format identifier needing no quotes. -/
def identSafeFirst (c : Char) : Bool :=
  (('a' ≤ c) && (c ≤ 'z')) || c = '_'

/-- Subsequent characters allowed in a pg-format identifier needing no
quotes. -/
def identSafeRest (c : Char) : Bool :=
  identSafeFirst c || (('0' ≤ c) && (c ≤ '9')) || c = '$'

/-- Whether pg-format `ident` returns the name unquoted (the lowercase
identifier shape; the reserved-word table of pg-format is omitted here —
no claim depends on a reserved column name). -/
def identNeedsNoQuotes (s : String) : Bool :=
  match s.data with
  | [] => false
  | c :: cs => identSafeFirst c && cs.all identSafeRest

/-- Model of the external pg-format `ident` escaper: safe lowercase names
pass through unchanged, anything else is wrapped in double quotes with
embedded double quotes doubled. -/
def pgFormatIdent (s : String) : String :=
  if identNeedsNoQuotes s then s
  else "\"" ++ String.join (s.data.map fun c =>
    if c = '"' then "\"\"" else String.singleton c) ++ "\""

mutual

/-- Embedding of `serialize` (sql module): try the custom hook and use its
result when truthy (a non-empty string — the source tests `if (custom)`,
so an empty string falls through like null); otherwise a fragment yields
its held text, an array yields the parenthesized comma-joined recursive
serialization of its elements, and anything else goes to pg-format
`literal`. -/
def serialize (cfg : Config) (v : Value) : String :=
  let fallback : String :=
    match v with
    | .raw f => f.rawSql
    | .arr items => "(" ++ String.intercalate "," (serializeList cfg items) ++ ")"
    | other => pgFormatLiteral other
  match customOpinion cfg v with
  | some custom => if custom = "" then fallback else custom
  | none => fallback
termination_by (sizeOf v, 1)

/-- The element-wise serialization `val.map(item => serialize(item))`
inside the array branch of `serialize`. -/
def serializeList (cfg : Config) (l : List Value) : List String :=
  match l with
  | [] => []
  | v :: rest => serialize cfg v :: serializeList cfg rest
termination_by (sizeOf l, 0)

end

/-- The `sql.raw` constructor: wrap already-safe SQL text in a fragment,
no escaping performed. -/
def sqlRaw (rawSql : String) : WithRawSql := ⟨rawSql⟩

/-- The interleaving loop of the `sql` template tag:
`params.forEach((param, index) => res.push(template[index], serialize(param)))`.
When the template runs out before the parameters (impossible for a genuine
tag call), the out-of-range `template[index]` is `undefined`, which
`Array.join` renders as the empty string. -/
def sqlTagPieces (cfg : Config) : List String → List Value → List String
  | _, [] => []
  | [], p :: ps => "" :: serialize cfg p :: sqlTagPieces cfg [] ps
  | t :: ts, p :: ps => t :: serialize cfg p :: sqlTagPieces cfg ts ps

/-- Embedding of the `sql` template tag: push `template[index]` and
`serialize(param)` for each parameter, push the last template segment
(`template[template.length-1]`, the empty string for an empty template),
and join everything with the empty separator into a raw fragment. -/
def sqlTag (cfg : Config) (template : List String) (params : List Value) : WithRawSql :=
  sqlRaw (String.join (sqlTagPieces cfg template params ++ [template.getLast?.getD ""]))

/-- The `sql.list` helper: parenthesized comma-joined serialization of the
items. -/
def sqlList (cfg : Config) (items : List Value) : WithRawSql :=
  sqlRaw ("(" ++ String.intercalate "," (items.map (serialize cfg)) ++ ")")

/-- The `sql.values` helper: a `(VALUES (...),(...))` clause, each row a
parenthesized comma-joined serialization. -/
def sqlValues (cfg : Config) (rows : List (List Value)) : WithRawSql :=
  sqlRaw ("(VALUES " ++ String.intercalate ","
    (rows.map fun row => "(" ++ String.intercalate "," (row.map (serialize cfg)) ++ ")") ++ ")")

/-- A JavaScript object used as a column-to-value mapping: an association
list in insertion order, keys distinct (non-integer-like names, so
`Object.keys` preserves insertion order). -/
abbrev RecordMap := List (String × Value)

/-- The member access `data[key]`: the stored value, or `undefined` when
the key is absent. -/
def getVal (data : RecordMap) (k : String) : Value :=
  (data.lookup k).getD .vUndefined

/-- The computation `Object.keys(data).filter(key => data[key] !== undefined)`
shared by `sql.insert`, `sql.multiInsert` and `sql.set`. -/
def definedKeys (data : RecordMap) : List String :=
  (data.map Prod.fst).filter fun k => !(getVal data k).isUndefined

/-- Embedding of `sql.insert`: keys with defined values (in original key
order) give the quoted column list and the serialized value list; an empty
key set throws `No keys to insert`. -/
def sqlInsert (cfg : Config) (data : RecordMap) : Except String WithRawSql :=
  let keys := definedKeys data
  if keys.isEmpty then .error "No keys to insert"
  else .ok (sqlRaw ("(" ++ String.intercalate "," (keys.map pgFormatIdent)
    ++ ") VALUES (" ++ String.intercalate "," (keys.map fun k => serialize cfg (getVal data k)) ++ ")"))

/-- Embedding of `sql.multiInsert`: an empty list throws `No data to insert`;
otherwise the column set comes from the first element only (its defined
keys), and every row is serialized at exactly those keys (a missing key
reads as `undefined`).  Note the source has no empty-column-set check here
(unlike `sql.insert`). -/
def sqlMultiInsert (cfg : Config) (list : List RecordMap) : Except String WithRawSql :=
  match list with
  | [] => .error "No data to insert"
  | first :: _ =>
    let keys := definedKeys first
    .ok (sqlRaw ("(" ++ String.intercalate "," (keys.map pgFormatIdent) ++ ") VALUES "
      ++ String.intercalate ","
        (list.map fun data => "(" ++ String.intercalate "," (keys.map fun k => serialize cfg (getVal data k)) ++ ")")))

/-- The `sql.array` helper: an `ARRAY[...]` literal with each item
serialized. -/
def sqlArray (cfg : Config) (items : List Value) : WithRawSql :=
  sqlRaw ("ARRAY[" ++ String.intercalate "," (items.map (serialize cfg)) ++ "]")

/-- Embedding of `sql.set`: one `ident=value` assignment per defined key in
original key order, comma-joined; an empty key set throws
`No keys to update`. -/
def sqlSet (cfg : Config) (data : RecordMap) : Except String WithRawSql :=
  let keys := definedKeys data
  if keys.isEmpty then .error "No keys to update"
  else .ok (sqlRaw (String.intercalate ","
    (keys.map fun k => pgFormatIdent k ++ "=" ++ serialize cfg (getVal data k))))

/-- Embedding of `sql.where`: drop null/undefined conditions (objects are
always truthy, so the filter keeps exactly the present fragments), wrap
each remaining text in parentheses; with none left return the default
condition or throw `No conditions`; otherwise join with the operator
padded by single spaces. -/
def sqlWhere (conditions : List (Option WithRawSql)) (op : String)
    (defaultCondition : Option WithRawSql) : Except String WithRawSql :=
  let filteredCondition := (conditions.filterMap id).map fun c => "(" ++ c.rawSql ++ ")"
  if filteredCondition.isEmpty then
    match defaultCondition with
    | none => .error "No conditions"
    | some d => .ok d
  else .ok (sqlRaw (String.intercalate (" " ++ op ++ " ") filteredCondition))

/-- The `sql.and` shorthand: `sql.where` with the AND combinator. -/
def sqlAnd (conditions : List (Option WithRawSql)) (defaultCondition : Option WithRawSql) :
    Except String WithRawSql :=
  sqlWhere conditions "AND" defaultCondition

/-- The `sql.or` shorthand: `sql.where` with the OR combinator. -/
def sqlOr (conditions : List (Option WithRawSql)) (defaultCondition : Option WithRawSql) :
    Except String WithRawSql :=
  sqlWhere conditions "OR" defaultCondition

/-- The `sql.ident` helper: a name quoted through pg-format `ident`. -/
def sqlIdent (s : String) : WithRawSql := sqlRaw (pgFormatIdent s)

/-- The `sql.join` helper: fragment texts joined with a comma and space. -/
def sqlJoin (arr : List WithRawSql) : WithRawSql :=
  sqlRaw (String.intercalate ", " (arr.map WithRawSql.rawSql))

/-- The `sql.concat` helper: fragment texts joined with a single space. -/
def sqlConcat (arr : List WithRawSql) : WithRawSql :=
  sqlRaw (String.intercalate " " (arr.map WithRawSql.rawSql))

/-- The facade-side view of the `WithRawSql<T>` class: the held text plus
the optional row-transform `_packF` installed by `pack` (initially absent;
`pack` builds a new fragment with the same text and the given transform,
so a later `pack` call wins).  The transform is typed here as an
endomorphism on the row type, a faithful instance of the source's
`PackFunction<any, T>`. -/
structure QueryFragment (Row : Type) where
  rawSql : String
  packF : Option (Row → Row)

/-- The `pack` method of `WithRawSql`: same text, transform installed. -/
def QueryFragment.pack {Row : Type} (q : QueryFragment Row) (pf : Row → Row) : QueryFragment Row :=
  ⟨q.rawSql, some pf⟩

/-- The narrow query-execution contract of the external pg driver, for a
`Client` as well as a `Pool`: running a SQL text either fails or yields
the decoded rows. -/
structure Client (E Row : Type) where
  runQuery : String → Except E (List Row)

/-- Embedding of the `query` function built by `wrapClient` and `wrapPool`
(`query => client.query(query.rawSql)`): the fragment's text goes to the
driver and the driver's result is returned as is — the stored `_packF` is
not consulted anywhere in the source. -/
def wrapQuery {E Row : Type} (client : Client E Row) (q : QueryFragment Row) :
    Except E (List Row) :=
  client.runQuery q.rawSql

/-- Modelled from the spec: the query operation the specification
describes, in which the fragment's optional row-transform is applied to
each row returned by the driver before the result reaches the caller.
(The facade in src never applies `_packF`; this definition exists to be
compared with `wrapQuery`.) -/
def specQuery {E Row : Type} (client : Client E Row) (q : QueryFragment Row) :
    Except E (List Row) :=
  (client.runQuery q.rawSql).map fun rows =>
    match q.packF with
    | some f => rows.map f
    | none => rows

/-- Observable driver-facing events of one transaction call: acquiring a
connection from the pool, sending a SQL text, releasing the connection. -/
inductive TxEvent where
  | connect
  | sqlSent (text : String)
  | release
deriving Repr, DecidableEq, BEq

/-- One concrete behavior of the driver and the handler during a
transaction call: the outcome of `pool.connect()`, of the BEGIN query, of
the handler, of the COMMIT query and of the ROLLBACK query (each consulted
only if control reaches it). -/
structure TxBehavior (E R : Type) where
  connectRes : Except E Unit
  beginRes : Except E Unit
  handlerRes : Except E R
  commitRes : Except E Unit
  rollbackRes : Except E Unit

/-- The try-block shared by both transaction wrappers: BEGIN, then the
handler, then COMMIT, stopping at the first failure.  Returns the queries
sent and the block's outcome.  (Queries issued by the handler itself are
abstracted away; they never touch connection release.) -/
def txTryBlock {E R : Type} (b : TxBehavior E R) : List TxEvent × Except E R :=
  match b.beginRes with
  | .error e => ([.sqlSent "BEGIN"], .error e)
  | .ok _ =>
    match b.handlerRes with
    | .error e => ([.sqlSent "BEGIN"], .error e)
    | .ok r =>
      match b.commitRes with
      | .error e => ([.sqlSent "BEGIN", .sqlSent "COMMIT"], .error e)
      | .ok _ => ([.sqlSent "BEGIN", .sqlSent "COMMIT"], .ok r)

/-- The catch-block shared by both transaction wrappers:
`await client.query('ROLLBACK'); throw err;` — if the ROLLBACK itself
fails, its error propagates instead and the caught error `e` is lost. -/
def txCatch {E R : Type} (b : TxBehavior E R) (e : E) : List TxEvent × Except E R :=
  match b.rollbackRes with
  | .error e2 => ([.sqlSent "ROLLBACK"], .error e2)
  | .ok _ => ([.sqlSent "ROLLBACK"], .error e)

/-- Embedding of `wrapClient.transaction`: the try-block, with failures
diverted through the catch-block.  No connection is acquired or released
(the single shared client is used). -/
def wrapClientTransaction {E R : Type} (b : TxBehavior E R) : List TxEvent × Except E R :=
  match txTryBlock b with
  | (evs, .ok r) => (evs, .ok r)
  | (evs, .error e) =>
    let caught := txCatch b e
    (evs ++ caught.1, caught.2)

/-- Embedding of `wrapPool.transaction`: acquire a connection with
`pool.connect()` (failure there propagates before any try-block runs),
run the same try/catch body as `wrapClient.transaction` on the acquired
connection, and release the connection in the `finally` block on every
exit path. -/
def wrapPoolTransaction {E R : Type} (b : TxBehavior E R) : List TxEvent × Except E R :=
  match b.connectRes with
  | .error e => ([], .error e)
  | .ok _ =>
    let body := wrapClientTransaction b
    (TxEvent.connect :: body.1 ++ [TxEvent.release], body.2)

/-- Decidable equality for driver results, used to settle concrete facade
computations. -/
instance instDecEqExcept {e a : Type} [DecidableEq e] [DecidableEq a] :
    DecidableEq (Except e a) := fun x y =>
  match x, y with
  | .ok u, .ok v =>
    if h : u = v then .isTrue (by rw [h]) else .isFalse (fun hh => h (Except.ok.inj hh))
  | .error u, .error v =>
    if h : u = v then .isTrue (by rw [h]) else .isFalse (fun hh => h (Except.error.inj hh))
  | .ok _, .error _ => .isFalse (fun hh => Except.noConfusion hh)
  | .error _, .ok _ => .isFalse (fun hh => Except.noConfusion hh)

/-- A concrete driver used to exhibit the behavior of the facade's query
on packed fragments: every query yields the rows 1 and 2. -/
def packDemoClient : Client String Int := ⟨fun _ => .ok [1, 2]⟩

/-- A concrete fragment carrying a row-transform: the successor function
attached via `pack`. -/
def packDemoFragment : QueryFragment Int :=
  QueryFragment.pack ⟨"SELECT n FROM t", none⟩ (fun n => n + 1)

theorem serializeList_eq_map (cfg : Config) (l : List Value) :
    serializeList cfg l = l.map (serialize cfg) := by
  induction l with
  | nil => simp [serializeList]
  | cons v rest ih => simp [serializeList, ih]

theorem String_join_cons (s : String) (l : List String) :
    String.join (s :: l) = s ++ String.join l := by
  cases s; simp [String.join_eq]; rfl

theorem String_join_append (l1 l2 : List String) :
    String.join (l1 ++ l2) = String.join l1 ++ String.join l2 := by
  induction l1 with
  | nil => simp [String.join_eq]
  | cons s rest ih =>
    rw [List.cons_append, String_join_cons, String_join_cons, ih, String.append_assoc]

/-- Serialization depends on the configuration only through the hook's
opinions: two configurations whose hooks answer identically on every value
serialize every value identically. -/
theorem serialize_config_congr (cfg1 cfg2 : Config)
    (h : ∀ v, customOpinion cfg1 v = customOpinion cfg2 v) :
    ∀ v, serialize cfg1 v = serialize cfg2 v := by
  have main : ∀ (n : Nat) (v : Value), sizeOf v ≤ n → serialize cfg1 v = serialize cfg2 v := by
    intro n
    induction n with
    | zero => intro v hv; cases v <;> simp at hv
    | succ n ih =>
      intro v hv
      have hrw := h v
      cases v with
      | arr items =>
        have hmap : serializeList cfg1 items = serializeList cfg2 items := by
          simp only [serializeList_eq_map]
          apply List.map_congr_left
          intro item hmem
          apply ih
          have h1 : sizeOf item < sizeOf items := List.sizeOf_lt_of_mem hmem
          have h2 : sizeOf (Value.arr items) = 1 + sizeOf items := by simp
          omega
        simp only [serialize]
        rw [hrw, hmap]
      | vNull => simp only [serialize]; rw [hrw]
      | vUndefined => simp only [serialize]; rw [hrw]
      | vBool b => simp only [serialize]; rw [hrw]
      | vInt i => simp only [serialize]; rw [hrw]
      | vStr s => simp only [serialize]; rw [hrw]
      | raw f => simp only [serialize]; rw [hrw]
  intro v
  exact main (sizeOf v) v (Nat.le_refl _)

/-- The interleaving loop of the template tag produces, once joined, the
zipWith of segments and serialized parameters, as long as the segments do
not run out. -/
theorem sqlTagPieces_join (cfg : Config) :
    ∀ (params : List Value) (segs : List String), params.length < segs.length →
      String.join (sqlTagPieces cfg segs params)
        = String.join (List.zipWith (fun seg p => seg ++ serialize cfg p) segs params) := by
  intro params
  induction params with
  | nil => intro segs h; cases segs <;> simp [sqlTagPieces]
  | cons p ps ih =>
    intro segs h
    cases segs with
    | nil => simp at h
    | cons s ss =>
      simp only [sqlTagPieces, List.zipWith_cons_cons]
      rw [String_join_cons, String_join_cons, String_join_cons,
        ih ss (by simpa using h), String.append_assoc]

/-- Evaluation of the serialization of null under the default
configuration: the generic escaper renders SQL NULL. -/
theorem serialize_empty_vNull : serialize Config.empty Value.vNull = "NULL" := by
  simp [serialize, customOpinion, Config.empty, pgFormatLiteral]

/-- Evaluation of the serialization of an integral number under the
default configuration. -/
theorem serialize_empty_vInt (n : Int) :
    serialize Config.empty (Value.vInt n) = pgQuoteString (toString n) := by
  simp [serialize, customOpinion, Config.empty, pgFormatLiteral]

/-- Evaluation of the serialization of the boolean true under the default
configuration: pg-format renders it as a quoted t. -/
theorem serialize_empty_vBool_true :
    serialize Config.empty (Value.vBool true) = "'t'" := by
  simp [serialize, customOpinion, Config.empty, pgFormatLiteral]

/-- C1: the facade never applies the row-transform attached via `pack`.
With a driver returning the rows 1 and 2 and a fragment packed with the
successor transform, the wrapped query returns the rows untransformed,
while the spec-modelled query returns them transformed — the code and the
claimed behavior disagree at this input. -/
theorem C1_row_transform_not_applied :
    wrapQuery packDemoClient packDemoFragment = .ok [1, 2] ∧
    specQuery packDemoClient packDemoFragment = .ok [2, 3] ∧
    wrapQuery packDemoClient packDemoFragment ≠ specQuery packDemoClient packDemoFragment := by
  decide

/-- C2 counterexample: a configured hook that returns the empty string — a
non-null string — is not used verbatim: on the null input serialize falls
through to the generic escaper and yields NULL instead of the hook's empty
string. -/
theorem C2_counterexample :
    serialize ⟨some fun _ => some ""⟩ Value.vNull = "NULL" ∧ ("NULL" : String) ≠ "" := by
  constructor
  · simp [serialize, customOpinion, pgFormatLiteral]
  · decide

/-- C2 (amended): for every input on which the configured hook returns a
truthy string — non-null and non-empty, since the source checks the result
with a truthiness test — serialize returns that string verbatim and no
other branch contributes; and with no hook configured, serialize agrees
everywhere with a configuration whose hook always returns no opinion. -/
theorem C2_custom_hook :
    (∀ (cfg : Config) (v : Value) (s : String),
        customOpinion cfg v = some s → s ≠ "" → serialize cfg v = s) ∧
    (∀ v : Value, serialize Config.empty v = serialize ⟨some fun _ => none⟩ v) := by
  constructor
  · intro cfg v s hs hne
    rw [serialize.eq_def, hs]
    simp [hne]
  · exact serialize_config_congr _ _ (fun _ => rfl)

/-- C2 witness: a hook returning the non-empty string `now()` for a string
input is used verbatim. -/
theorem C2_custom_hook_witness :
    serialize ⟨some fun _ => some "now()"⟩ (Value.vStr "x") = "now()" :=
  C2_custom_hook.1 _ _ _ rfl (by decide)

/-- C3: in the pooled transaction, once the connection is acquired the
release event occurs exactly once, whatever the outcomes of BEGIN, the
handler, COMMIT and ROLLBACK — covering normal completion, handler
failure, and the ROLLBACK after a failure itself failing. -/
theorem C3_release_exactly_once {E R : Type} (b : TxBehavior E R)
    (h : b.connectRes = .ok ()) :
    (wrapPoolTransaction b).1.count TxEvent.release = 1 := by
  obtain ⟨c, bg, hd, cm, rb⟩ := b
  simp only at h
  subst h
  rcases bg with e1 | u1 <;> rcases hd with e2 | r <;> rcases cm with e3 | u3 <;>
    rcases rb with e4 | u4 <;> rfl

/-- C3 witness: at the behavior where the handler fails and the ROLLBACK
also fails, the acquired connection is still released exactly once. -/
theorem C3_release_exactly_once_witness :
    (wrapPoolTransaction (⟨.ok (), .ok (), .error "handler failed", .ok (),
        .error "rollback failed"⟩ : TxBehavior String Nat)).1.count TxEvent.release = 1 :=
  C3_release_exactly_once _ rfl

/-- C4: the code masks the original failure when ROLLBACK fails. With
handler failure E1 and rollback failure E2, both transaction wrappers send
ROLLBACK but propagate E2 and lose E1 — the claim requires the original
failure not be suppressed. When ROLLBACK succeeds, the original E1 is
re-raised unchanged after exactly one ROLLBACK. -/
theorem C4_rollback_failure_masks_original :
    (wrapPoolTransaction (⟨.ok (), .ok (), .error "E1", .ok (),
        .error "E2"⟩ : TxBehavior String Nat)).2 = .error "E2" ∧
    (wrapPoolTransaction (⟨.ok (), .ok (), .error "E1", .ok (),
        .error "E2"⟩ : TxBehavior String Nat)).2 ≠ .error "E1" ∧
    (wrapClientTransaction (⟨.ok (), .ok (), .error "E1", .ok (),
        .error "E2"⟩ : TxBehavior String Nat)).2 = .error "E2" ∧
    (wrapPoolTransaction (⟨.ok (), .ok (), .error "E1", .ok (),
        .ok ()⟩ : TxBehavior String Nat)).2 = .error "E1" ∧
    (wrapPoolTransaction (⟨.ok (), .ok (), .error "E1", .ok (),
        .ok ()⟩ : TxBehavior String Nat)).1.count (TxEvent.sqlSent "ROLLBACK") = 1 := by
  decide

/-- C5 counterexample: multiInsert on a non-empty sequence whose first row
has no defined keys raises no construction error — it returns the fragment
`() VALUES ()` instead. -/
theorem C5_counterexample :
    sqlMultiInsert Config.empty [[("a", Value.vUndefined)]] = .ok (sqlRaw "() VALUES ()") := rfl

/-- C5 (amended): multiInsert fails — with the no-rows error — exactly when
the sequence is empty; every non-empty sequence succeeds, even one whose
first row has no defined keys, and the column list of the produced
fragment is computed from the first row only. -/
theorem C5_multiInsert_failures :
    (∀ cfg : Config, sqlMultiInsert cfg [] = .error "No data to insert") ∧
    (∀ (cfg : Config) (first : RecordMap) (rest : List RecordMap),
      ∃ rowsText : String,
        sqlMultiInsert cfg (first :: rest)
          = .ok (sqlRaw ("(" ++ String.intercalate "," ((definedKeys first).map pgFormatIdent)
              ++ ") VALUES " ++ rowsText))) := by
  refine ⟨fun cfg => rfl, fun cfg first rest => ⟨_, rfl⟩⟩

/-- C6: for a template of n+1 static segments and n interleaved parameter
values, the sql tag's output text is the alternation of the segments —
concatenated unmodified — with the serialization of each parameter,
closing with the last segment. -/
theorem C6_template_interleaving (cfg : Config) (segs : List String) (params : List Value)
    (h : segs.length = params.length + 1) :
    (sqlTag cfg segs params).rawSql
      = String.join (List.zipWith (fun seg p => seg ++ serialize cfg p) segs params)
        ++ segs.getLast?.getD "" := by
  show String.join (sqlTagPieces cfg segs params ++ [segs.getLast?.getD ""]) = _
  rw [String_join_append, sqlTagPieces_join cfg params segs (by omega), String_join_cons]
  simp [String.join_eq]

/-- C6 witness: a three-segment template with two parameters satisfies the
interleaving equation. -/
theorem C6_template_interleaving_witness :
    (sqlTag Config.empty ["SELECT ", " + ", ""] [Value.vNull, Value.vBool true]).rawSql
      = String.join (List.zipWith (fun seg p => seg ++ serialize Config.empty p)
          ["SELECT ", " + ", ""] [Value.vNull, Value.vBool true])
        ++ (["SELECT ", " + ", ""] : List String).getLast?.getD "" :=
  C6_template_interleaving Config.empty _ _ (by decide)

/-- C7: serializing a raw fragment yields its held text verbatim — the
round-trip of wrap then serialize is the identity on the text, with no
escaping applied (under the source's initial configuration, which installs
no custom hook). -/
theorem C7_raw_roundtrip (text : String) :
    serialize Config.empty (Value.raw (sqlRaw text)) = text := by
  simp [serialize, customOpinion, Config.empty, sqlRaw]

/-- C8: an array serializes to the parenthesized comma-joined recursive
serialization of its elements; in particular a three-element array gives
exactly the claimed concatenation, and the empty array gives a bare pair
of parentheses. -/
theorem C8_array_serialization :
    (∀ l : List Value, serialize Config.empty (Value.arr l)
        = "(" ++ String.intercalate "," (l.map (serialize Config.empty)) ++ ")") ∧
    (∀ a b c : Value, serialize Config.empty (Value.arr [a, b, c])
        = "(" ++ serialize Config.empty a ++ "," ++ serialize Config.empty b ++ ","
            ++ serialize Config.empty c ++ ")") ∧
    serialize Config.empty (Value.arr []) = "()" := by
  have hgen : ∀ l : List Value, serialize Config.empty (Value.arr l)
      = "(" ++ String.intercalate "," (l.map (serialize Config.empty)) ++ ")" := by
    intro l
    simp [serialize, customOpinion, Config.empty, serializeList_eq_map]
  refine ⟨hgen, fun a b c => ?_, ?_⟩
  · rw [hgen]
    have hic : String.intercalate ","
        [serialize Config.empty a, serialize Config.empty b, serialize Config.empty c]
      = serialize Config.empty a ++ "," ++ serialize Config.empty b ++ ","
          ++ serialize Config.empty c := rfl
    simp only [List.map]
    rw [hic]
    simp [String.append_assoc]
  · rw [hgen]
    rfl

/-- C9: in insert and set, keys with undefined values are omitted while
null values are kept and rendered as SQL NULL; the remaining keys appear
in original key order, quoted through the identifier escaper; and when no
defined key remains the operation fails with its no-columns error. -/
theorem C9_insert_set_undefined_null :
    (∀ (cfg : Config) (data : RecordMap),
        sqlSet cfg data = .error "No keys to update" ↔ definedKeys data = []) ∧
    (∀ (cfg : Config) (data : RecordMap),
        sqlInsert cfg data = .error "No keys to insert" ↔ definedKeys data = []) ∧
    (∀ (cfg : Config) (data : RecordMap), definedKeys data ≠ [] →
        sqlSet cfg data = .ok (sqlRaw (String.intercalate ","
          ((definedKeys data).map fun k =>
            pgFormatIdent k ++ "=" ++ serialize cfg (getVal data k))))) ∧
    (∀ (cfg : Config) (data : RecordMap), definedKeys data ≠ [] →
        sqlInsert cfg data = .ok (sqlRaw ("("
          ++ String.intercalate "," ((definedKeys data).map pgFormatIdent)
          ++ ") VALUES ("
          ++ String.intercalate "," ((definedKeys data).map fun k => serialize cfg (getVal data k))
          ++ ")"))) ∧
    definedKeys [("a", Value.vInt 1), ("b", Value.vUndefined), ("c", Value.vInt 2)] = ["a", "c"] ∧
    sqlSet Config.empty [("a", Value.vInt 1), ("b", Value.vUndefined), ("c", Value.vInt 2)]
      = sqlSet Config.empty [("a", Value.vInt 1), ("c", Value.vInt 2)] ∧
    sqlInsert Config.empty [("a", Value.vInt 1), ("b", Value.vUndefined), ("c", Value.vInt 2)]
      = sqlInsert Config.empty [("a", Value.vInt 1), ("c", Value.vInt 2)] ∧
    sqlSet Config.empty [("a", Value.vNull)] = .ok (sqlRaw "a=NULL") ∧
    sqlInsert Config.empty [("a", Value.vNull), ("b", Value.vBool true)]
      = .ok (sqlRaw "(a,b) VALUES (NULL,'t')") ∧
    sqlInsert Config.empty [("a", Value.vUndefined)] = .error "No keys to insert" := by
  refine ⟨?_, ?_, ?_, ?_, by decide, ?_, ?_, ?_, ?_, rfl⟩
  · intro cfg data
    constructor
    · intro he
      by_contra hne
      have hk : (definedKeys data).isEmpty = false := by simpa [List.isEmpty_iff] using hne
      simp [sqlSet, hk] at he
    · intro hnil
      simp [sqlSet, hnil]
  · intro cfg data
    constructor
    · intro he
      by_contra hne
      have hk : (definedKeys data).isEmpty = false := by simpa [List.isEmpty_iff] using hne
      simp [sqlInsert, hk] at he
    · intro hnil
      simp [sqlInsert, hnil]
  · intro cfg data h
    have hk : (definedKeys data).isEmpty = false := by simpa [List.isEmpty_iff] using h
    simp [sqlSet, hk]
  · intro cfg data h
    have hk : (definedKeys data).isEmpty = false := by simpa [List.isEmpty_iff] using h
    simp [sqlInsert, hk]
  · simp [sqlSet, definedKeys, getVal, Value.isUndefined, List.lookup, List.filter, List.map,
      serialize_empty_vInt]
  · simp [sqlInsert, definedKeys, getVal, Value.isUndefined, List.lookup, List.filter, List.map,
      serialize_empty_vInt]
  · simp [sqlSet, definedKeys, getVal, Value.isUndefined, List.lookup, List.filter, List.map,
      serialize_empty_vNull]
    decide
  · simp [sqlInsert, definedKeys, getVal, Value.isUndefined, List.lookup, List.filter, List.map,
      serialize_empty_vNull, serialize_empty_vBool_true]
    decide

/-- C9 witness: a mapping with one defined key satisfies the general
insert-clause equation. -/
theorem C9_insert_set_witness :
    sqlInsert Config.empty [("x", Value.vBool true)]
      = .ok (sqlRaw ("("
          ++ String.intercalate "," ((definedKeys [("x", Value.vBool true)]).map pgFormatIdent)
          ++ ") VALUES ("
          ++ String.intercalate "," ((definedKeys [("x", Value.vBool true)]).map fun k =>
              serialize Config.empty (getVal [("x", Value.vBool true)] k))
          ++ ")")) :=
  C9_insert_set_undefined_null.2.2.2.1 Config.empty _ (by decide)

/-- C10: where drops null and undefined conditions, parenthesizes the
remaining fragment texts and joins them with the combinator padded by
spaces; with no conditions left it returns the supplied default fragment
unchanged, and fails with the no-conditions error when no default was
supplied; and and or are where with the fixed combinator. -/
theorem C10_where_filters_and_joins :
    (∀ (conds : List (Option WithRawSql)) (op : String) (dflt : Option WithRawSql),
        conds.filterMap id ≠ [] →
        sqlWhere conds op dflt = .ok (sqlRaw (String.intercalate (" " ++ op ++ " ")
          ((conds.filterMap id).map fun c => "(" ++ c.rawSql ++ ")")))) ∧
    (∀ (conds : List (Option WithRawSql)) (op : String) (d : WithRawSql),
        conds.filterMap id = [] → sqlWhere conds op (some d) = .ok d) ∧
    (∀ (conds : List (Option WithRawSql)) (op : String),
        conds.filterMap id = [] → sqlWhere conds op none = .error "No conditions") ∧
    (∀ (conds : List (Option WithRawSql)) (dflt : Option WithRawSql),
        sqlAnd conds dflt = sqlWhere conds "AND" dflt) ∧
    (∀ (conds : List (Option WithRawSql)) (dflt : Option WithRawSql),
        sqlOr conds dflt = sqlWhere conds "OR" dflt) ∧
    sqlWhere [some (sqlRaw "x=1"), none, some (sqlRaw "y=2")] "OR" none
      = .ok (sqlRaw "(x=1) OR (y=2)") := by
  refine ⟨?_, ?_, ?_, fun _ _ => rfl, fun _ _ => rfl, rfl⟩
  · intro conds op dflt h
    have hk : (((conds.filterMap id).map fun c => "(" ++ c.rawSql ++ ")").isEmpty) = false := by
      simp [List.isEmpty_iff, h]
    simp [sqlWhere, hk]
  · intro conds op d h
    simp [sqlWhere, h]
  · intro conds op h
    simp [sqlWhere, h]

/-- C10 witness: a list whose only entry is absent falls back to the
supplied default fragment. -/
theorem C10_where_filters_and_joins_witness :
    sqlWhere [none] "AND" (some (sqlRaw "TRUE")) = .ok (sqlRaw "TRUE") :=
  C10_where_filters_and_joins.2.1 [none] "AND" (sqlRaw "TRUE") (by decide)

end Sqlmint
